import Mathlib

/-!
# Verification of the ITSM dashboard data-access and aggregation core

Shallow embedding, in Lean 4, of the resilient data-access and aggregation
core of the ITSM analytics dashboard (`src/client` of the repository):

* `src/client/utils/fields.js` — field accessors and query-value sanitization;
* `src/client/services/IncidentService.js`, `ChangeService.js`,
  `SLAService.js` — the three remote data sources with their query builders,
  fetch-or-fallback accessors and synthetic (mock) record generators;
* the derived-metric calculators of the tab components
  (`ChangeTab.jsx` `calculateSuccessRate`, `TrendsTab.jsx` `calculateTrend`,
  `MTTRTab.jsx` / `OverviewTab.jsx` MTTR pipelines).

Modelling conventions:

* JavaScript numbers are modelled as `ℚ` (exact rational arithmetic);
  `Math.round` is Mathlib's `round` (both round half toward +∞).
* A ServiceNow field value (a bare string, a `{display_value, value}` object,
  `null`, or `undefined`) is the inductive `Field`; JavaScript truthiness of
  strings (`""` is falsy) is made explicit in `jsStrOr`.
* A network round trip is the inductive `FetchOutcome`: an HTTP-success
  response carrying a decoded `data.result` (possibly `null`, hence
  `Option`), a non-2xx status, a transport error, or a decode error.
  `try { ... } catch { ... }` is modelled with `Except`: the `try` body is an
  `Except`-valued computation and the accessor maps every `error` to the
  synthetic fallback list.
* Where an accessor must be counted (how many fetches a call performs), the
  services are given in fetch-counting form: an environment
  `FetchEnv` assigns an outcome to the n-th fetch of a call chain, and each
  accessor maps the index of the next fetch to its result together with the
  index after it, so "number of fetches performed" is observable.
* `Math.random()` draws and `Date` parsing have no Lean counterpart; mock
  generators take an abstract randomness oracle (one draw per call index),
  and timestamps consumed by the MTTR pipelines are already-parsed epoch
  milliseconds (`Option ℚ`, `none` for a missing/empty/unparseable field).
-/

namespace ITSM

/-! ## fields.js -/

/-- A ServiceNow field value as it reaches the client:
a bare string, a `{display_value, value}` object (either member possibly
absent), `null`, or `undefined` (also standing for any other non-string,
non-object value, which the accessors treat identically). -/
inductive Field
  | str (s : String)
  | fobj (display_value value : Option String)
  | null
  | undef
deriving DecidableEq, Repr

/-- JavaScript `x || d` for an optional string `x`: the empty string is
falsy, so `none` and `some ""` both fall back to `d`. -/
def jsStrOr (x : Option String) (d : String) : String :=
  match x with
  | none => d
  | some s => if s = "" then d else s

/-- JavaScript `a || b` at `Option String`, keeping the optional type:
used where the fallback is itself a possibly-absent value. -/
def jsStrOrOpt (a b : Option String) : Option String :=
  match a with
  | none => b
  | some s => if s = "" then b else some s

/-- `display` from `fields.js`: a bare string is returned unchanged,
otherwise `field?.display_value || ''`. -/
def display : Field → String
  | .str s => s
  | .fobj dv _ => jsStrOr dv ""
  | .null => ""
  | .undef => ""

/-- `value` from `fields.js`: a bare string is returned unchanged,
otherwise `field?.value || ''`. -/
def value : Field → String
  | .str s => s
  | .fobj _ v => jsStrOr v ""
  | .null => ""
  | .undef => ""

/-- The characters removed by `sanitizeQueryValue`
(`/[\^=\n\r]/g`). -/
def bannedQueryChars : List Char := ['^', '=', '\n', '\r']

/-- The character-removal part of `sanitizeQueryValue`:
`val.replace(/[\^=\n\r]/g, '')`. -/
def sanitizeString (v : String) : String :=
  String.mk (v.toList.filter (fun c => !(bannedQueryChars.contains c)))

/-- `sanitizeQueryValue` from `fields.js`: a non-string input yields `''`,
a string has `^`, `=` and newline characters removed. -/
def sanitizeQueryValue : Option String → String
  | none => ""
  | some v => sanitizeString v

/-! ## Filters and encoded queries

`filters` is the structured filter object passed to every accessor.  The
fields used by the services: an optional date range (already rendered to the
`start`/`end` strings the query builders splice in), optional priority /
category / assignment-group / state / type / SLA-type values, and the
record-count cap `recordLimit` (`filters.recordLimit || 2000`). -/

structure Filters where
  dateStart : String := "2025-06-13 00:00:00"
  dateEnd : String := "2025-10-11 23:59:59"
  priority : Option String := none
  category : Option String := none
  assignmentGroup : Option String := none
  state : Option String := none
  type : Option String := none
  slaType : Option String := none
  recordLimit : Option Nat := none
deriving Repr

/-- JavaScript truthiness of an optional string filter value:
present and non-empty. -/
def jsTruthy : Option String → Bool
  | none => false
  | some s => !(s = "")

/-- `filters.recordLimit || 2000`: absent (and the falsy `0`) default to
2000. -/
def effLimit (f : Filters) : Nat :=
  match f.recordLimit with
  | none => 2000
  | some n => if n = 0 then 2000 else n

/-- One optional equality clause of an encoded query: JavaScript
`if (filters.x) { query += "^field=" + sanitizeQueryValue(filters.x) }`.
The truthiness guard runs on the raw value, before sanitization. -/
def optClause (field : String) (v : Option String) : String :=
  if jsTruthy v then "^" ++ field ++ "=" ++ sanitizeQueryValue v else ""

/-- `buildDateQuery` (identical in all three services):
`sys_created_on>=start^sys_created_on<=end`. -/
def buildDateQuery (start end_ : String) : String :=
  "sys_created_on>=" ++ start ++ "^sys_created_on<=" ++ end_

/-- The encoded query built by `IncidentService.getOpenIncidents`:
date range, `^active=true`, then optional sanitized priority / category /
assignment-group clauses in that order. -/
def openIncidentsQuery (f : Filters) : String :=
  buildDateQuery f.dateStart f.dateEnd ++ "^active=true"
    ++ optClause "priority" f.priority
    ++ optClause "category" f.category
    ++ optClause "assignment_group.name" f.assignmentGroup

/-- The encoded query built by `IncidentService.getResolvedIncidents`:
date range, `^state=6`, then optional sanitized priority / category
clauses. -/
def resolvedIncidentsQuery (f : Filters) : String :=
  buildDateQuery f.dateStart f.dateEnd ++ "^state=6"
    ++ optClause "priority" f.priority
    ++ optClause "category" f.category

/-- The encoded query built by `ChangeService.getChanges`: date range, then
optional sanitized state / type / assignment-group clauses. -/
def changesQuery (f : Filters) : String :=
  buildDateQuery f.dateStart f.dateEnd
    ++ optClause "state" f.state
    ++ optClause "type" f.type
    ++ optClause "assignment_group.name" f.assignmentGroup

/-- The encoded query built by `SLAService.getSLAPerformance`: date range,
`^task.sys_class_name=incident`, then optional sanitized task-priority /
SLA-name clauses. -/
def slaPerformanceQuery (f : Filters) : String :=
  buildDateQuery f.dateStart f.dateEnd ++ "^task.sys_class_name=incident"
    ++ optClause "task.priority" f.priority
    ++ optClause "sla.name" f.slaType

/-! ## Records and synthetic (mock) record generators -/

/-- An incident record as projected by
`sysparm_fields=sys_id,number,short_description,priority,state,category,assigned_to,sys_created_on`. -/
structure IncidentRecord where
  sys_id : Field := .undef
  number : Field := .undef
  short_description : Field := .undef
  priority : Field := .undef
  state : Field := .undef
  category : Field := .undef
  assigned_to : Field := .undef
  sys_created_on : Field := .undef
deriving DecidableEq, Repr

/-- A resolved-incident record as projected by
`sysparm_fields=sys_id,number,sys_created_on,resolved_at,priority,category`. -/
structure ResolvedIncidentRecord where
  sys_id : Field := .undef
  number : Field := .undef
  sys_created_on : Field := .undef
  resolved_at : Field := .undef
  priority : Field := .undef
  category : Field := .undef
deriving DecidableEq, Repr

/-- A change-request record as projected by
`sysparm_fields=sys_id,number,short_description,state,type,assigned_to,sys_created_on`. -/
structure ChangeRecord where
  sys_id : Field := .undef
  number : Field := .undef
  short_description : Field := .undef
  state : Field := .undef
  type : Field := .undef
  assigned_to : Field := .undef
  sys_created_on : Field := .undef
deriving DecidableEq, Repr

/-- The `has_breached` member of a `task_sla` record: in real responses a
`{display_value, value}` object whose raw `value` may be a boolean rather
than a string (the mock generator stores `breached : Bool` there), or
absent. -/
inductive BreachScalar
  | bstr (s : String)
  | bbool (b : Bool)
deriving DecidableEq, Repr

/-- The `has_breached` field shape: an object with an optional string
`display_value` and an optional string-or-boolean `value`, or
null/undefined. -/
inductive BreachField
  | fobj (display_value : Option String) (value : Option BreachScalar)
  | null
deriving DecidableEq, Repr

/-- A `task_sla` record as projected by
`sysparm_fields=sys_id,task,sla,stage,has_breached,percentage,sys_created_on`. -/
structure SLARecord where
  sys_id : Field := .undef
  task : Field := .undef
  sla : Field := .undef
  stage : Field := .undef
  has_breached : BreachField := .null
  percentage : Field := .undef
  sys_created_on : Field := .undef
deriving DecidableEq, Repr

/-- A randomness oracle standing in for the sequence of `Math.random()`
draws of one mock-generator call: draw `i` is `rand i ∈ [0, 1)`.  Nothing
proved here depends on the drawn values, only on the shape and count of the
generated records. -/
def RandOracle := Nat → ℚ

/-- JavaScript `Math.ceil` on our rational model of numbers. -/
def jsCeil (q : ℚ) : ℤ := ⌈q⌉

/-- `IncidentService.getMockIncidents`: 35 synthetic open incidents; record
`i` draws its creation offset and its priority `Math.ceil(r * 4)` from the
oracle, the remaining fields are fixed-format strings. -/
def getMockIncidents (rand : RandOracle) : List IncidentRecord :=
  (List.range 35).map (fun i =>
    let priority := toString (jsCeil (rand (2 * i + 1) * 4))
    { sys_id := .fobj (some s!"mock_{i}") (some s!"mock_{i}")
      number := .fobj (some s!"INC000{1000 + i}") (some s!"INC000{1000 + i}")
      short_description := .fobj (some s!"Sample incident {i + 1} - System issue")
        (some s!"Sample incident {i + 1} - System issue")
      priority := .fobj (some priority) (some priority)
      state := .fobj (some (if rand (2 * i) > 3 / 10 then "2" else "6"))
        (some (if rand (2 * i) > 3 / 10 then "2" else "6"))
      category := .fobj (some "Hardware") (some "hardware")
      assigned_to := .fobj (some "John Doe") (some "user_0")
      sys_created_on := .fobj (some s!"created_{i}") (some s!"created_{i}") })

/-- `IncidentService.getMockResolvedIncidents`: 25 synthetic resolved
incidents, resolution drawn as a bounded offset after creation. -/
def getMockResolvedIncidents (rand : RandOracle) : List ResolvedIncidentRecord :=
  (List.range 25).map (fun i =>
    let priority := toString (jsCeil (rand (2 * i + 1) * 4))
    { sys_id := .fobj (some s!"resolved_{i}") (some s!"resolved_{i}")
      number := .fobj (some s!"INC000{2000 + i}") (some s!"INC000{2000 + i}")
      sys_created_on := .fobj (some s!"created_{i}") (some s!"created_{i}")
      resolved_at := .fobj (some s!"resolved_at_{i}") (some s!"resolved_at_{i}")
      priority := .fobj (some priority) (some priority)
      category := .fobj (some "Hardware") (some "hardware") })

/-- `ChangeService.getMockChanges`: 25 synthetic change requests with a
state drawn from the five `{name, value}` pairs of the source. -/
def getMockChanges (rand : RandOracle) : List ChangeRecord :=
  let states : List (String × String) :=
    [("New", "1"), ("Assess", "2"), ("Scheduled", "3"), ("Completed", "4"), ("Failed", "-1")]
  (List.range 25).map (fun i =>
    let st := states.getD (⌊rand (2 * i + 1) * 5⌋).toNat ("New", "1")
    { sys_id := .fobj (some s!"change_{i}") (some s!"change_{i}")
      number := .fobj (some s!"CHG000{3000 + i}") (some s!"CHG000{3000 + i}")
      short_description := .fobj (some s!"Change request {i + 1} - System upgrade")
        (some s!"Change request {i + 1} - System upgrade")
      state := .fobj (some st.1) (some st.2)
      type := .fobj (some "Normal") (some "normal")
      assigned_to := .fobj (some "Alice Johnson") (some "user_0")
      sys_created_on := .fobj (some s!"created_{i}") (some s!"created_{i}") })

/-- `SLAService.getMockSLAData`: 50 synthetic `task_sla` records; record `i`
is breached when its draw exceeds 0.85, `has_breached` carries
`breached.toString()` as display and the boolean itself as raw value. -/
def getMockSLAData (rand : RandOracle) : List SLARecord :=
  (List.range 50).map (fun i =>
    let breached : Bool := rand (2 * i + 1) > 85 / 100
    { sys_id := .fobj (some s!"sla_{i}") (some s!"sla_{i}")
      task := .fobj (some s!"INC000{4000 + i}") (some s!"task_{i}")
      sla := .fobj (some (if i % 2 = 0 then "Response Time" else "Resolution Time"))
        (some s!"sla_def_{i % 2}")
      stage := .fobj (some (if breached then "Breached" else "Completed"))
        (some (if breached then "breached" else "completed"))
      has_breached := .fobj (some (toString breached)) (some (.bbool breached))
      percentage := .fobj (some s!"pct_{i}") (some s!"pct_{i}")
      sys_created_on := .fobj (some s!"created_{i}") (some s!"created_{i}") })

/-! ## Fetch outcomes and the fetch-or-fallback accessors -/

/-- The outcome of one network round trip of an accessor, as the `try` body
observes it: an HTTP-success response whose decoded body carries
`data.result` (possibly `null`, hence `Option`), a non-2xx status
(`throw new Error("HTTP ...")`), a transport error (`fetch` rejects), or a
decode error (`response.json()` rejects). -/
inductive FetchOutcome (α : Type)
  | success (result : Option (List α))
  | httpError (status : Nat)
  | transportError
  | decodeError
deriving DecidableEq, Repr

/-- Whether an outcome is one of the three failure kinds. -/
def FetchOutcome.isFailure {α : Type} : FetchOutcome α → Bool
  | .success _ => false
  | _ => true

/-- The `try` body of a base accessor, up to `data.result || []`: an
HTTP-success outcome yields the decoded list (a `null` result coerced to
`[]`), every failure outcome is a thrown error reaching the `catch`. -/
def fetchStep {α : Type} : FetchOutcome α → Except (FetchOutcome α) (List α)
  | .success result => .ok (result.getD [])
  | o => .error o

/-- The shared fetch-or-fallback shape of every base accessor: run the
`try` body, and let the `catch` turn any thrown fetch failure into the
entity's synthetic fallback list. -/
def fetchOrFallback {α : Type} (o : FetchOutcome α) (fallback : List α) : List α :=
  match fetchStep o with
  | .ok rs => rs
  | .error _ => fallback

/-- `IncidentService.getOpenIncidents`, as the caller observes it: the
encoded query and cap (`openIncidentsQuery`, `effLimit`) parameterize the
fetch whose outcome is `o`; success returns the decoded list, any failure
is caught and replaced by `getMockIncidents`.  The `Except` result type
records whether the accessor itself throws to the caller. -/
def getOpenIncidents (_f : Filters) (rand : RandOracle)
    (o : FetchOutcome IncidentRecord) : Except String (List IncidentRecord) :=
  .ok (fetchOrFallback o (getMockIncidents rand))

/-- `IncidentService.getResolvedIncidents`: same contract, falling back to
`getMockResolvedIncidents`. -/
def getResolvedIncidents (_f : Filters) (rand : RandOracle)
    (o : FetchOutcome ResolvedIncidentRecord) :
    Except String (List ResolvedIncidentRecord) :=
  .ok (fetchOrFallback o (getMockResolvedIncidents rand))

/-- `ChangeService.getChanges`: same contract, falling back to
`getMockChanges`. -/
def getChanges (_f : Filters) (rand : RandOracle)
    (o : FetchOutcome ChangeRecord) : Except String (List ChangeRecord) :=
  .ok (fetchOrFallback o (getMockChanges rand))

/-- `SLAService.getSLAPerformance`: same contract, falling back to
`getMockSLAData`. -/
def getSLAPerformance (_f : Filters) (rand : RandOracle)
    (o : FetchOutcome SLARecord) : Except String (List SLARecord) :=
  .ok (fetchOrFallback o (getMockSLAData rand))

/-! ## Fetch-counting form of the SLA service

To settle how many fetches one `getSLAComplianceRate` call performs, the
SLA service is also given in state-passing form: `FetchEnv` fixes the
outcome of the n-th fetch of a call chain, and each accessor takes the
index of the next fetch and returns its result together with the index
after it.  The number of fetches a call performs is the difference of the
two indices. -/

/-- Outcome of the n-th fetch performed in one call chain. -/
def FetchEnv (α : Type) := Nat → FetchOutcome α

/-- `getSLAPerformance` in fetch-counting form: performs exactly the one
fetch `n`. -/
def getSLAPerformanceSt (_f : Filters) (rand : RandOracle)
    (env : FetchEnv SLARecord) (n : Nat) : List SLARecord × Nat :=
  (fetchOrFallback (env n) (getMockSLAData rand), n + 1)

/-- The breach test applied per record by `getSLABreaches` and
`getSLAComplianceRate`:
`(sla.has_breached?.display_value || sla.has_breached?.value)` compared
with `'true'` or `true`. -/
def isBreachedRec (r : SLARecord) : Bool :=
  match r.has_breached with
  | .null => false
  | .fobj dv v =>
    let breached : Option BreachScalar :=
      match dv with
      | none => v
      | some s => if s = "" then v else some (.bstr s)
    match breached with
    | some (.bstr s) => s = "true"
    | some (.bbool b) => b = true
    | none => false

/-- `SLAService.getSLABreaches`: one call to the base accessor, then a pure
filter of its output. -/
def getSLABreachesSt (f : Filters) (rand : RandOracle)
    (env : FetchEnv SLARecord) (n : Nat) : List SLARecord × Nat :=
  let (slaData, n') := getSLAPerformanceSt f rand env n
  (slaData.filter isBreachedRec, n')

/-- The `{rate, total, breached, compliant}` result of
`getSLAComplianceRate`. -/
structure ComplianceResult where
  rate : ℚ
  total : ℤ
  breached : ℤ
  compliant : ℤ
deriving DecidableEq, Repr

/-- The sentinel `getSLAComplianceRate` returns for an empty batch. -/
def complianceSentinel : ComplianceResult :=
  { rate := 92.5, total := 100, breached := 7, compliant := 93 }

/-- The batch-to-result computation of `SLAService.getSLAComplianceRate`
(current service): an empty batch yields the sentinel; otherwise
`breached` counts the breach-test hits in the batch, `total` its length,
`compliant = total - breached`, and
`rate = Math.round((compliant / total) * 10000) / 100`. -/
def complianceOf (allSLAs : List SLARecord) : ComplianceResult :=
  if allSLAs.length = 0 then complianceSentinel
  else
    let breached : ℤ := (allSLAs.filter isBreachedRec).length
    let total : ℤ := allSLAs.length
    let compliant : ℤ := total - breached
    { rate := (round ((compliant : ℚ) / (total : ℚ) * 10000) : ℤ) / 100
      total := total
      breached := breached
      compliant := compliant }

/-- `SLAService.getSLAComplianceRate` (current service, fetch-counting
form): one call to the base accessor, then the pure `complianceOf` of that
single batch. -/
def getSLAComplianceRateSt (f : Filters) (rand : RandOracle)
    (env : FetchEnv SLARecord) (n : Nat) : ComplianceResult × Nat :=
  let (allSLAs, n') := getSLAPerformanceSt f rand env n
  (complianceOf allSLAs, n')

/-- The superseded `getSLAComplianceRate` still present in the repository's
older service copy: it calls `getSLAPerformance` and `getSLABreaches`
independently, so numerator and denominator come from two fetches. -/
def getSLAComplianceRateOldSt (f : Filters) (rand : RandOracle)
    (env : FetchEnv SLARecord) (n : Nat) : ComplianceResult × Nat :=
  let (allSLAs, n1) := getSLAPerformanceSt f rand env n
  let (breachedSLAs, n2) := getSLABreachesSt f rand env n1
  if allSLAs.length = 0 then (complianceSentinel, n2)
  else
    let total : ℤ := allSLAs.length
    let breached : ℤ := breachedSLAs.length
    let compliant : ℤ := total - breached
    ({ rate := (round ((compliant : ℚ) / (total : ℚ) * 10000) : ℤ) / 100
       total := total
       breached := breached
       compliant := compliant }, n2)

/-! ## Derived-metric calculators -/

/-- The `{P1, P2, P3, P4}` accumulator of
`IncidentService.getIncidentCountsByPriority`. -/
structure PriorityCounts where
  P1 : Nat
  P2 : Nat
  P3 : Nat
  P4 : Nat
deriving DecidableEq, Repr

/-- The total of the four buckets (the quantity the spec compares with the
input record count). -/
def sumCounts (c : PriorityCounts) : Nat :=
  c.P1 + c.P2 + c.P3 + c.P4

/-- JavaScript `String.prototype.trim`: drop leading and trailing
whitespace. -/
def jsTrim (s : String) : String :=
  String.mk ((s.toList.dropWhile Char.isWhitespace).reverse.dropWhile Char.isWhitespace).reverse

/-- The per-record priority normalization of `getIncidentCountsByPriority`:
an object resolves `display_value || value`, a bare string is used as is, a
missing/null (or otherwise non-object, non-string) priority is set to
`'4'`; the result then runs through `String(priorityValue || '4').trim()`. -/
def normalizePriority : Field → String
  | .fobj dv v => jsTrim (jsStrOr (jsStrOrOpt dv v) "4")
  | .str s => jsTrim (jsStrOr (some s) "4")
  | .null => jsTrim (jsStrOr (some "4") "4")
  | .undef => jsTrim (jsStrOr (some "4") "4")

/-- One loop iteration of `getIncidentCountsByPriority`: increment the
`P<value>` bucket when it exists; an unexpected normalized value only logs
a warning and increments nothing. -/
def bumpPriority (c : PriorityCounts) (k : String) : PriorityCounts :=
  if k = "1" then { c with P1 := c.P1 + 1 }
  else if k = "2" then { c with P2 := c.P2 + 1 }
  else if k = "3" then { c with P3 := c.P3 + 1 }
  else if k = "4" then { c with P4 := c.P4 + 1 }
  else c

/-- `IncidentService.getIncidentCountsByPriority`, applied to the record
list its base-accessor call produced: fold the bucket increments over the
records starting from `{P1: 0, P2: 0, P3: 0, P4: 0}`. -/
def getIncidentCountsByPriority (incidents : List IncidentRecord) : PriorityCounts :=
  incidents.foldl (fun c incident => bumpPriority c (normalizePriority incident.priority)) ⟨0, 0, 0, 0⟩

/-- `ChangeTab.calculateSuccessRate`: among the fetched changes, terminal
records are those whose display state is `'3'` or `'4'`, successful ones
those with `'3'`; the rate is `Math.round(successful / completed * 100)`,
with the `|| 0` coercion turning the `NaN` of an empty terminal set into 0. -/
def calculateSuccessRate (allChanges : List ChangeRecord) : ℤ :=
  if allChanges.length = 0 then 0
  else
    let completedChanges := allChanges.filter
      (fun change => display change.state == "3" || display change.state == "4")
    let successfulChanges := completedChanges.filter
      (fun change => display change.state == "3")
    if completedChanges.length = 0 then 0
    else round ((successfulChanges.length : ℚ) / (completedChanges.length : ℚ) * 100)

/-- The state resolution of `ChangeService.getSuccessfulChanges`:
`change.state?.display_value || change.state?.value` — property access on a
bare string (or on `null`/`undefined`) yields `undefined`. -/
def stateDispOrValue : Field → Option String
  | .str _ => none
  | .fobj dv v => jsStrOrOpt dv v
  | .null => none
  | .undef => none

/-- The pure post-processing of `ChangeService.getSuccessfulChanges` over
its base-accessor output: keep a change exactly when its resolved state is
`'Completed'` or `'3'`. -/
def successfulChangesFilter (changes : List ChangeRecord) : List ChangeRecord :=
  changes.filter (fun change =>
    stateDispOrValue change.state == some "Completed"
      || stateDispOrValue change.state == some "3")

/-- `TrendsTab.calculateTrend` over the ordered-by-time counts of a trend
series (`d.count` of each `{date, count}` point): compare the mean of
`data.slice(-5)` with the mean of `data.slice(-10, -5)`. -/
def calculateTrend (data : List ℚ) : String :=
  if data.length < 2 then "No trend"
  else
    let recent := data.drop (data.length - 5)
    let older := (data.take (data.length - 5)).drop (data.length - 10)
    if recent.length = 0 || older.length = 0 then "Insufficient data"
    else
      let recentAvg := recent.sum / recent.length
      let olderAvg := older.sum / older.length
      if recentAvg > olderAvg * 1.1 then "Increasing"
      else if recentAvg < olderAvg * 0.9 then "Decreasing"
      else "Stable"

/-! ## MTTR pipelines

A resolved incident as the MTTR pipelines consume it: the two timestamps
are already-parsed epoch milliseconds, `none` standing for a field whose
`display` form is empty/missing or fails to parse as a date (both make the
record drop out of the pipeline, the former at the presence filter, the
latter as a `NaN` duration failing `> 0`). -/

structure ParsedResolved where
  sys_created_on : Option ℚ := none
  resolved_at : Option ℚ := none
  priority : Field := .undef
  category : Field := .undef
deriving DecidableEq, Repr

/-- `(resolved - created) / (1000 * 60 * 60)`: elapsed hours. -/
def mttrHours (created resolved : ℚ) : ℚ :=
  (resolved - created) / (1000 * 60 * 60)

/-- The MTTR value list of `MTTRTab.loadMTTRData` (the `mttr` member of
each surviving record, exactly the values later fed to
`calculateAverage`/`calculateMedian`): keep records with both timestamps,
compute hours, clamp a non-positive duration to `0`
(`hours > 0 ? hours : 0`), then drop every record with `mttr <= 0`. -/
def mttrValuesTab (resolvedIncidents : List ParsedResolved) : List ℚ :=
  ((resolvedIncidents.filter
      (fun incident => incident.resolved_at.isSome && incident.sys_created_on.isSome)).map
    (fun incident =>
      let hours := mttrHours (incident.sys_created_on.getD 0) (incident.resolved_at.getD 0)
      if hours > 0 then hours else 0)).filter (fun mttr => mttr > 0)

/-- The MTTR value list of `OverviewTab.loadOverviewData`: keep records
with both timestamps, map to hours, keep only strictly positive hours. -/
def mttrValuesOverview (resolvedData : List ParsedResolved) : List ℚ :=
  ((resolvedData.filter
      (fun incident => incident.resolved_at.isSome && incident.sys_created_on.isSome)).map
    (fun incident =>
      mttrHours (incident.sys_created_on.getD 0) (incident.resolved_at.getD 0))).filter
    (fun hours => hours > 0)

end ITSM

/-! ## Theorems -/

namespace ITSM

/-! ### Helper lemmas -/

lemma fetchOrFallback_of_isFailure {α : Type} (o : FetchOutcome α) (fb : List α)
    (h : o.isFailure = true) : fetchOrFallback o fb = fb := by
  cases o with
  | success r => simp [FetchOutcome.isFailure] at h
  | httpError s => rfl
  | transportError => rfl
  | decodeError => rfl

lemma fetchOrFallback_success {α : Type} (result : Option (List α)) (fb : List α) :
    fetchOrFallback (.success result) fb = result.getD [] := rfl

lemma getMockIncidents_length (rand : RandOracle) :
    (getMockIncidents rand).length = 35 := by
  simp [getMockIncidents]

lemma getMockResolvedIncidents_length (rand : RandOracle) :
    (getMockResolvedIncidents rand).length = 25 := by
  simp [getMockResolvedIncidents]

lemma getMockChanges_length (rand : RandOracle) :
    (getMockChanges rand).length = 25 := by
  simp [getMockChanges]

lemma getMockSLAData_length (rand : RandOracle) :
    (getMockSLAData rand).length = 50 := by
  simp [getMockSLAData]

/-- C1: every base accessor of the Incident, Change and SLA data sources
resolves without throwing for every fetch outcome (the result is always
`Except.ok` of a record list, never an error, never a missing value — a
`null` decoded body is coerced to `[]`), and on every fetch failure
(non-success HTTP status, transport error, decode error) the returned list
is exactly the entity's synthetic fallback list, of the same record type
and shape as a remote-success result. -/
theorem c1_accessors_never_raise (f : Filters) (rand : RandOracle)
    (oI : FetchOutcome IncidentRecord) (oR : FetchOutcome ResolvedIncidentRecord)
    (oC : FetchOutcome ChangeRecord) (oS : FetchOutcome SLARecord) :
    ((∃ rs, getOpenIncidents f rand oI = .ok rs) ∧
      (∃ rs, getResolvedIncidents f rand oR = .ok rs) ∧
      (∃ rs, getChanges f rand oC = .ok rs) ∧
      (∃ rs, getSLAPerformance f rand oS = .ok rs)) ∧
    ((oI.isFailure = true → getOpenIncidents f rand oI = .ok (getMockIncidents rand)) ∧
      (oR.isFailure = true →
        getResolvedIncidents f rand oR = .ok (getMockResolvedIncidents rand)) ∧
      (oC.isFailure = true → getChanges f rand oC = .ok (getMockChanges rand)) ∧
      (oS.isFailure = true → getSLAPerformance f rand oS = .ok (getMockSLAData rand))) ∧
    (getOpenIncidents f rand (.success none) = .ok [] ∧
      getResolvedIncidents f rand (.success none) = .ok [] ∧
      getChanges f rand (.success none) = .ok [] ∧
      getSLAPerformance f rand (.success none) = .ok []) := by
  refine ⟨⟨⟨_, rfl⟩, ⟨_, rfl⟩, ⟨_, rfl⟩, ⟨_, rfl⟩⟩, ⟨?_, ?_, ?_, ?_⟩, rfl, rfl, rfl, rfl⟩ <;>
    intro h <;>
    simp only [getOpenIncidents, getResolvedIncidents, getChanges, getSLAPerformance,
      fetchOrFallback_of_isFailure _ _ h]

/-- Witness for C1 at concrete inputs: a transport error on each service
returns the corresponding synthetic fallback list. -/
theorem c1_accessors_never_raise_witness :
    getOpenIncidents {} (fun _ => 1 / 2) .transportError =
      .ok (getMockIncidents (fun _ => 1 / 2)) ∧
    getResolvedIncidents {} (fun _ => 1 / 2) .decodeError =
      .ok (getMockResolvedIncidents (fun _ => 1 / 2)) ∧
    getChanges {} (fun _ => 1 / 2) (.httpError 500) =
      .ok (getMockChanges (fun _ => 1 / 2)) ∧
    getSLAPerformance {} (fun _ => 1 / 2) .transportError =
      .ok (getMockSLAData (fun _ => 1 / 2)) := by
  have h := c1_accessors_never_raise {} (fun _ => 1 / 2)
    .transportError .decodeError (.httpError 500) .transportError
  exact ⟨h.2.1.1 rfl, h.2.1.2.1 rfl, h.2.1.2.2.1 rfl, h.2.1.2.2.2 rfl⟩

/-- C2: `getSLAComplianceRate` is deterministic from its fetched batch: an
empty batch yields exactly the sentinel `{rate: 92.5, total: 100,
breached: 7, compliant: 93}`, and a non-empty batch of `total` records
yields `compliant + breached = total` and
`rate = round((compliant / total) * 10000) / 100`. -/
theorem c2_compliance_rate (batch : List SLARecord) :
    (batch.length = 0 →
      complianceOf batch = complianceSentinel ∧
      complianceSentinel = { rate := 92.5, total := 100, breached := 7, compliant := 93 }) ∧
    (0 < batch.length →
      (complianceOf batch).compliant + (complianceOf batch).breached =
        (complianceOf batch).total ∧
      (complianceOf batch).total = batch.length ∧
      (complianceOf batch).breached = (batch.filter isBreachedRec).length ∧
      (complianceOf batch).rate =
        (round (((complianceOf batch).compliant : ℚ) / ((complianceOf batch).total : ℚ)
          * 10000) : ℤ) / 100) := by
  constructor
  · intro h
    exact ⟨by simp [complianceOf, h], rfl⟩
  · intro h
    have hne : ¬ batch.length = 0 := Nat.pos_iff_ne_zero.mp h
    simp only [complianceOf, hne, if_false]
    refine ⟨by ring, ?_, ?_, ?_⟩ <;> first | rfl | trivial

/-- Witness for C2: the empty batch gives the sentinel, and a concrete
one-record unbreached batch gives `{rate: 100, total: 1, breached: 0,
compliant: 1}` satisfying the arithmetic contract. -/
theorem c2_compliance_rate_witness :
    (complianceOf [] = complianceSentinel ∧
      complianceSentinel = { rate := 92.5, total := 100, breached := 7, compliant := 93 }) ∧
    ((complianceOf [{ has_breached := .null }]).compliant +
        (complianceOf [{ has_breached := .null }]).breached =
      (complianceOf [{ has_breached := .null }]).total ∧
      (complianceOf [{ has_breached := .null }]).total =
        ([({ has_breached := .null } : SLARecord)] : List SLARecord).length ∧
      (complianceOf [{ has_breached := .null }]).breached =
        (([({ has_breached := .null } : SLARecord)] : List SLARecord).filter isBreachedRec).length ∧
      (complianceOf [{ has_breached := .null }]).rate =
        (round (((complianceOf [{ has_breached := .null }]).compliant : ℚ) /
          ((complianceOf [{ has_breached := .null }]).total : ℚ) * 10000) : ℤ) / 100) := by
  exact ⟨(c2_compliance_rate []).1 rfl,
    (c2_compliance_rate [{ has_breached := .null }]).2 (by decide)⟩

/-- C3: one call of the current `getSLAComplianceRate` advances the fetch
counter by exactly one — the single base fetch of `getSLAPerformance` —
and its numerator and denominator are the pure `complianceOf` of that one
fetched batch; the derived accessor `getSLABreaches` likewise performs
exactly the one base fetch and is a pure filter of the base accessor's
output, re-applying no fallback of its own. -/
theorem c3_single_fetch (f : Filters) (rand : RandOracle)
    (env : FetchEnv SLARecord) (n : Nat) :
    (getSLAComplianceRateSt f rand env n).2 = n + 1 ∧
    (getSLAComplianceRateSt f rand env n).1 =
      complianceOf (getSLAPerformanceSt f rand env n).1 ∧
    (getSLABreachesSt f rand env n).2 = n + 1 ∧
    (getSLABreachesSt f rand env n).1 =
      (getSLAPerformanceSt f rand env n).1.filter isBreachedRec ∧
    (getSLAPerformanceSt f rand env n).2 = n + 1 :=
  ⟨rfl, rfl, rfl, rfl, rfl⟩

/-- The superseded compliance-rate implementation in the repository's older
SLA-service copy performs two independent base fetches per call (it calls
`getSLAPerformance` and then `getSLABreaches`, which fetches again). -/
theorem slaComplianceOld_two_fetches (f : Filters) (rand : RandOracle)
    (env : FetchEnv SLARecord) (n : Nat) :
    (getSLAComplianceRateOldSt f rand env n).2 = n + 2 := by
  simp only [getSLAComplianceRateOldSt, getSLABreachesSt, getSLAPerformanceSt]
  split <;> rfl

/-- C4 counterexample: the claim says a value that sanitization strips to
empty makes its equality clause be omitted from the query entirely; but for
the user-supplied priority `"^"` (truthy, sanitized to `""`)
`getOpenIncidents` builds the same query as with no priority filter *plus*
a dangling `^priority=` clause — the clause is emitted with an empty
right-hand side, not omitted. -/
theorem c4_counterexample :
    openIncidentsQuery { priority := some "^" } =
      openIncidentsQuery { priority := none } ++ "^priority=" ∧
    openIncidentsQuery { priority := some "^" } ≠
      openIncidentsQuery { priority := none } := by
  constructor
  · rfl
  · decide

/-- C4 amended: each user-supplied filter value is inserted into the
encoded queries only through `optClause`, which sanitizes it by removing
clause-separator (`^`), equality (`=`) and newline (`\n`, `\r`) characters;
an absent or empty (falsy) filter value contributes no clause; but a
non-empty value that sanitization strips to empty still contributes its
equality clause with an empty right-hand side (`^field=`) rather than the
clause being omitted. -/
theorem c4_amended_sanitized_insertion (f : Filters) (field s : String) :
    (openIncidentsQuery f =
      buildDateQuery f.dateStart f.dateEnd ++ "^active=true"
        ++ optClause "priority" f.priority ++ optClause "category" f.category
        ++ optClause "assignment_group.name" f.assignmentGroup) ∧
    (resolvedIncidentsQuery f =
      buildDateQuery f.dateStart f.dateEnd ++ "^state=6"
        ++ optClause "priority" f.priority ++ optClause "category" f.category) ∧
    (changesQuery f =
      buildDateQuery f.dateStart f.dateEnd
        ++ optClause "state" f.state ++ optClause "type" f.type
        ++ optClause "assignment_group.name" f.assignmentGroup) ∧
    (slaPerformanceQuery f =
      buildDateQuery f.dateStart f.dateEnd ++ "^task.sys_class_name=incident"
        ++ optClause "task.priority" f.priority ++ optClause "sla.name" f.slaType) ∧
    (s ≠ "" → optClause field (some s) = "^" ++ field ++ "=" ++ sanitizeString s) ∧
    (∀ c ∈ (sanitizeString s).toList, ¬ c ∈ bannedQueryChars) ∧
    (optClause field none = "" ∧ optClause field (some "") = "") ∧
    (s ≠ "" → sanitizeString s = "" → optClause field (some s) = "^" ++ field ++ "=") := by
  refine ⟨rfl, rfl, rfl, rfl, ?_, ?_, ⟨rfl, rfl⟩, ?_⟩
  · intro hs
    simp [optClause, jsTruthy, hs, sanitizeQueryValue]
  · intro c hc
    have h : c ∈ s.toList.filter (fun c => !(bannedQueryChars.contains c)) := hc
    have := (List.mem_filter.mp h).2
    simpa using this
  · intro hs hempty
    simp [optClause, jsTruthy, hs, sanitizeQueryValue, hempty]

/-- Witness for C4 amended, at the priority value `"^"`: non-empty, wholly
stripped by sanitization, and yielding the dangling `^priority=` clause. -/
theorem c4_amended_witness :
    optClause "priority" (some "^") = "^" ++ "priority" ++ "=" ++ sanitizeString "^" ∧
    (∀ c ∈ (sanitizeString "^").toList, ¬ c ∈ bannedQueryChars) ∧
    optClause "priority" (some "^") = "^" ++ "priority" ++ "=" := by
  have h := c4_amended_sanitized_insertion {} "priority" "^"
  exact ⟨h.2.2.2.2.1 (by decide), h.2.2.2.2.2.1, h.2.2.2.2.2.2.2 (by decide) (by decide)⟩

lemma sumCounts_bump (c : PriorityCounts) (k : String) :
    sumCounts (bumpPriority c k) =
      sumCounts c + (if (["1", "2", "3", "4"] : List String).contains k then 1 else 0) := by
  unfold bumpPriority sumCounts
  split_ifs <;> (simp_all; try omega)

lemma sumCounts_foldl (l : List IncidentRecord) (c : PriorityCounts) :
    sumCounts (l.foldl (fun c incident => bumpPriority c (normalizePriority incident.priority)) c) =
      sumCounts c + (l.filter (fun incident =>
        (["1", "2", "3", "4"] : List String).contains (normalizePriority incident.priority))).length := by
  induction l generalizing c with
  | nil => simp
  | cons i t ih =>
    simp only [List.foldl_cons, List.filter_cons]
    rw [ih, sumCounts_bump]
    split <;> (simp_all; try omega)

/-- C5 counterexample: the record list `[{priority: "5"}]` has one record,
but `getIncidentCountsByPriority` counts its unexpected (non-absent,
non-null, yet out-of-range) priority in no bucket at all, so
`P1 + P2 + P3 + P4 = 0 ≠ 1` — the claimed "bucket totals always equal the
input record count" fails. -/
theorem c5_counterexample :
    sumCounts (getIncidentCountsByPriority [{ priority := .str "5" }]) ≠
      ([({ priority := Field.str "5" } : IncidentRecord)] : List IncidentRecord).length ∧
    sumCounts (getIncidentCountsByPriority [{ priority := .str "5" }]) = 0 ∧
    ([({ priority := Field.str "5" } : IncidentRecord)] : List IncidentRecord).length = 1 := by
  refine ⟨by decide, by decide, by decide⟩

/-- C5 amended: `getIncidentCountsByPriority` accepts a priority arriving
as a `{display_value, value}` object, a bare string, or absent; an absent
or null priority normalizes to `'4'` and is counted in P4; but a record
whose normalized priority falls outside `{'1','2','3','4'}` is counted in
no bucket, so `P1 + P2 + P3 + P4` equals the number of records whose
normalized priority lies in that set (the full input count exactly when
every record normalizes into it).  The scenario
`[{priority: "1"}, {priority: null}, {priority: {display_value: "3"}}]`
yields `{P1: 1, P2: 0, P3: 1, P4: 1}`. -/
theorem c5_amended_priority_counts (incidents : List IncidentRecord) :
    sumCounts (getIncidentCountsByPriority incidents) =
      (incidents.filter (fun incident =>
        (["1", "2", "3", "4"] : List String).contains (normalizePriority incident.priority))).length ∧
    normalizePriority .null = "4" ∧
    normalizePriority .undef = "4" ∧
    getIncidentCountsByPriority
      [{ priority := .str "1" }, { priority := .null }, { priority := .fobj (some "3") none }] =
      ⟨1, 0, 1, 1⟩ := by
  refine ⟨?_, by decide, by decide, by decide⟩
  simpa [sumCounts] using sumCounts_foldl incidents ⟨0, 0, 0, 0⟩

lemma mttrHours_pos_iff (c t : ℚ) : 0 < mttrHours c t ↔ c < t := by
  unfold mttrHours
  exact ⟨fun h => by nlinarith, fun h => div_pos (by linarith) (by norm_num)⟩

lemma mttrValues_tab_eq_overview (rs : List ParsedResolved) :
    mttrValuesTab rs = mttrValuesOverview rs := by
  unfold mttrValuesTab mttrValuesOverview
  induction rs.filter
      (fun incident => incident.resolved_at.isSome && incident.sys_created_on.isSome) with
  | nil => rfl
  | cons r t ih =>
    simp only [List.map_cons, List.filter_cons]
    by_cases h : mttrHours (r.sys_created_on.getD 0) (r.resolved_at.getD 0) > 0
    · simp [h, ih]
    · simp [h, ih]

lemma mttrValuesOverview_length (rs : List ParsedResolved) :
    (mttrValuesOverview rs).length =
      (rs.filter (fun r =>
        match r.sys_created_on, r.resolved_at with
        | some c, some t => decide (c < t)
        | _, _ => false)).length := by
  induction rs with
  | nil => rfl
  | cons r t ih =>
    unfold mttrValuesOverview at ih ⊢
    rcases hc : r.sys_created_on with _ | c <;> rcases hr : r.resolved_at with _ | t' <;>
      simp only [List.filter_cons, hc, hr, Option.isSome_none, Option.isSome_some,
        Bool.false_and, Bool.and_false, Bool.true_and, Bool.and_true, Option.getD_some] <;>
      try exact ih
    by_cases h : c < t'
    · have hp : 0 < mttrHours c t' := (mttrHours_pos_iff c t').mpr h
      simp [List.filter_cons, hc, hr, h, hp, ih]
    · have hp : ¬ 0 < mttrHours c t' := fun hpos => h ((mttrHours_pos_iff c t').mp hpos)
      simp [List.filter_cons, hc, hr, h, hp, ih]

/-- C6: for every resolved-incident set, both MTTR pipelines (`MTTRTab` and
`OverviewTab`) produce the same value list; every value in it — exactly the
values fed to mean/median and reported — is strictly positive; and its
length is the number of records carrying both timestamps with
`createdAt < resolvedAt`, so a record with `resolvedAt <= createdAt` (or a
missing timestamp) never appears in the averaged set — it is excluded, not
clamped to zero. -/
theorem c6_mttr_strictly_positive (rs : List ParsedResolved) :
    (∀ m ∈ mttrValuesTab rs, 0 < m) ∧
    (∀ h ∈ mttrValuesOverview rs, 0 < h) ∧
    mttrValuesTab rs = mttrValuesOverview rs ∧
    (mttrValuesTab rs).length =
      (rs.filter (fun r =>
        match r.sys_created_on, r.resolved_at with
        | some c, some t => decide (c < t)
        | _, _ => false)).length := by
  have hover : ∀ h ∈ mttrValuesOverview rs, 0 < h := by
    intro h hmem
    have := List.mem_filter.mp hmem
    exact of_decide_eq_true this.2
  refine ⟨?_, hover, mttrValues_tab_eq_overview rs, ?_⟩
  · intro m hmem
    exact hover m (mttrValues_tab_eq_overview rs ▸ hmem)
  · rw [mttrValues_tab_eq_overview rs]
    exact mttrValuesOverview_length rs

/-- Witness for C6 at a concrete record set: of the four records (one
resolved 2 hours after creation, one resolved at the instant of creation,
one resolved before creation, one with a missing created timestamp), only
the first survives, and its single MTTR value 2 is positive. -/
theorem c6_mttr_strictly_positive_witness :
    mttrValuesTab
      [{ sys_created_on := some 0, resolved_at := some 7200000 },
        { sys_created_on := some 100, resolved_at := some 100 },
        { sys_created_on := some 100, resolved_at := some 50 },
        { sys_created_on := none, resolved_at := some 50 }] = [2] ∧
    (0 : ℚ) < 2 ∧
    (mttrValuesTab
      [{ sys_created_on := some 0, resolved_at := some 7200000 },
        { sys_created_on := some 100, resolved_at := some 100 },
        { sys_created_on := some 100, resolved_at := some 50 },
        { sys_created_on := none, resolved_at := some 50 }]).length = 1 := by
  have heval : mttrValuesTab
      [{ sys_created_on := some 0, resolved_at := some 7200000 },
        { sys_created_on := some 100, resolved_at := some 100 },
        { sys_created_on := some 100, resolved_at := some 50 },
        { sys_created_on := none, resolved_at := some 50 }] = [2] := by
    norm_num [mttrValuesTab, mttrHours, List.filter]
  refine ⟨heval, ?_, by rw [heval]; rfl⟩
  exact (c6_mttr_strictly_positive _).1 2 (by rw [heval]; exact List.mem_singleton.mpr rfl)

lemma fetchOrFallback_length_le {α : Type} (f : Filters) (o : FetchOutcome α)
    (fb : List α) (hcap : 500 ≤ effLimit f)
    (hok : ∀ result, o = .success result → (result.getD []).length ≤ effLimit f)
    (hfb : fb.length ≤ 500) : (fetchOrFallback o fb).length ≤ effLimit f := by
  cases o with
  | success result => exact hok result rfl
  | httpError s =>
    rw [fetchOrFallback_of_isFailure (FetchOutcome.httpError s) fb rfl]
    exact le_trans hfb hcap
  | transportError =>
    rw [fetchOrFallback_of_isFailure FetchOutcome.transportError fb rfl]
    exact le_trans hfb hcap
  | decodeError =>
    rw [fetchOrFallback_of_isFailure FetchOutcome.decodeError fb rfl]
    exact le_trans hfb hcap

/-- C7: whenever the filter's effective record cap
(`filters.recordLimit || 2000`) is at least the 500 lower bound of its
configured range and the remote honors the `sysparm_limit` cap it is sent
(an HTTP-success body never carries more than the cap), every base
accessor resolves to a record list of length at most the cap: on the
remote-success path by the honored `sysparm_limit`, and on the synthetic
fallback path because every mock list (35, 25, 25 and 50 records) is
shorter than 500. -/
theorem c7_record_cap (f : Filters) (rand : RandOracle)
    (oI : FetchOutcome IncidentRecord) (oR : FetchOutcome ResolvedIncidentRecord)
    (oC : FetchOutcome ChangeRecord) (oS : FetchOutcome SLARecord)
    (hcap : 500 ≤ effLimit f)
    (hI : ∀ result, oI = .success result → (result.getD []).length ≤ effLimit f)
    (hR : ∀ result, oR = .success result → (result.getD []).length ≤ effLimit f)
    (hC : ∀ result, oC = .success result → (result.getD []).length ≤ effLimit f)
    (hS : ∀ result, oS = .success result → (result.getD []).length ≤ effLimit f) :
    (∃ rs, getOpenIncidents f rand oI = .ok rs ∧ rs.length ≤ effLimit f) ∧
    (∃ rs, getResolvedIncidents f rand oR = .ok rs ∧ rs.length ≤ effLimit f) ∧
    (∃ rs, getChanges f rand oC = .ok rs ∧ rs.length ≤ effLimit f) ∧
    (∃ rs, getSLAPerformance f rand oS = .ok rs ∧ rs.length ≤ effLimit f) := by
  refine ⟨⟨_, rfl, ?_⟩, ⟨_, rfl, ?_⟩, ⟨_, rfl, ?_⟩, ⟨_, rfl, ?_⟩⟩
  · exact fetchOrFallback_length_le f oI _ hcap hI (by rw [getMockIncidents_length]; omega)
  · exact fetchOrFallback_length_le f oR _ hcap hR
      (by rw [getMockResolvedIncidents_length]; omega)
  · exact fetchOrFallback_length_le f oC _ hcap hC (by rw [getMockChanges_length]; omega)
  · exact fetchOrFallback_length_le f oS _ hcap hS (by rw [getMockSLAData_length]; omega)

/-- Witness for C7 at the smallest in-range cap 500: a success with an
empty decoded body for incidents and each failure kind for the other three
services all resolve within the cap. -/
theorem c7_record_cap_witness :
    (∃ rs, getOpenIncidents { recordLimit := some 500 } (fun _ => 1 / 2)
        (.success (some [])) = .ok rs ∧ rs.length ≤ effLimit { recordLimit := some 500 }) ∧
    (∃ rs, getResolvedIncidents { recordLimit := some 500 } (fun _ => 1 / 2)
        .transportError = .ok rs ∧ rs.length ≤ effLimit { recordLimit := some 500 }) ∧
    (∃ rs, getChanges { recordLimit := some 500 } (fun _ => 1 / 2)
        .decodeError = .ok rs ∧ rs.length ≤ effLimit { recordLimit := some 500 }) ∧
    (∃ rs, getSLAPerformance { recordLimit := some 500 } (fun _ => 1 / 2)
        (.httpError 503) = .ok rs ∧ rs.length ≤ effLimit { recordLimit := some 500 }) := by
  exact c7_record_cap { recordLimit := some 500 } (fun _ => 1 / 2)
    (.success (some [])) .transportError .decodeError (.httpError 503)
    (by decide)
    (fun result hres => by cases hres; decide)
    (fun result hres => nomatch hres)
    (fun result hres => nomatch hres)
    (fun result hres => nomatch hres)

/-- C8: `calculateTrend` compares the mean of the last-5 window
(`data.slice(-5)`, `min 5 n` points) with the mean of the preceding-5
window (`data.slice(-10, -5)`, `min 5 (n - 5)` points): a series of fewer
than 2 points is "No trend"; an empty preceding window is "Insufficient
data"; otherwise the result is "Increasing" when the recent mean exceeds
1.1 times the older mean (a greater-than-10% increase), "Decreasing" when
it is below 0.9 times the older mean (a greater-than-10% decrease), and
"Stable" otherwise. -/
theorem c8_trend_classifier (data : List ℚ) :
    ((data.drop (data.length - 5)).length = min 5 data.length ∧
      ((data.take (data.length - 5)).drop (data.length - 10)).length =
        min 5 (data.length - 5)) ∧
    (data.length < 2 → calculateTrend data = "No trend") ∧
    (2 ≤ data.length → (data.take (data.length - 5)).drop (data.length - 10) = [] →
      calculateTrend data = "Insufficient data") ∧
    (2 ≤ data.length → (data.take (data.length - 5)).drop (data.length - 10) ≠ [] →
      calculateTrend data =
        (if (data.drop (data.length - 5)).sum / ((data.drop (data.length - 5)).length : ℚ) >
            ((data.take (data.length - 5)).drop (data.length - 10)).sum /
              ((((data.take (data.length - 5)).drop (data.length - 10)).length : ℚ)) * 1.1
          then "Increasing"
          else if (data.drop (data.length - 5)).sum / ((data.drop (data.length - 5)).length : ℚ) <
              ((data.take (data.length - 5)).drop (data.length - 10)).sum /
                ((((data.take (data.length - 5)).drop (data.length - 10)).length : ℚ)) * 0.9
            then "Decreasing" else "Stable")) := by
  refine ⟨⟨?_, ?_⟩, ?_, ?_, ?_⟩
  · rw [List.length_drop]; omega
  · rw [List.length_drop, List.length_take]; omega
  · intro h
    simp [calculateTrend, h]
  · intro h2 hold
    have hlen : ((data.take (data.length - 5)).drop (data.length - 10)).length = 0 := by
      rw [hold]; rfl
    simp [calculateTrend, Nat.not_lt.mpr h2, hlen]
  · intro h2 hold
    have hrec : ¬ (data.drop (data.length - 5)).length = 0 := by
      rw [List.length_drop]; omega
    have holdlen : ¬ ((data.take (data.length - 5)).drop (data.length - 10)).length = 0 :=
      fun h => hold (List.length_eq_zero.mp h)
    simp only [calculateTrend, hrec, holdlen]
    rw [if_neg (by omega : ¬ data.length < 2)]
    rw [if_neg (by simp [hrec, holdlen])]

/-- Witness for C8: a 10-point series whose last-5 mean is 20% above its
first-5 mean classifies as "Increasing". -/
theorem c8_trend_classifier_witness :
    2 ≤ ([10, 10, 10, 10, 10, 12, 12, 12, 12, 12] : List ℚ).length ∧
    calculateTrend [10, 10, 10, 10, 10, 12, 12, 12, 12, 12] = "Increasing" := by
  have h := (c8_trend_classifier [10, 10, 10, 10, 10, 12, 12, 12, 12, 12]).2.2.2
    (by decide) (by decide)
  refine ⟨by decide, ?_⟩
  rw [h]
  norm_num

/-- C9: `calculateSuccessRate` draws its verdict set from exactly the
records in a terminal display state (`'3'` — Completed — or `'4'` — the
Closed-equivalent code): when no terminal-state record exists the rate is
0; otherwise it is `round(successful / completed * 100)` with the
numerator counting strictly the `'3'` records among them; a record in any
non-terminal state leaves the rate unchanged; and
`getSuccessfulChanges` keeps strictly the records whose resolved state is
`'Completed'` or `'3'` (never `Failed` or `Cancelled`). -/
theorem c9_change_success_rate (allChanges : List ChangeRecord) :
    (allChanges.filter
        (fun change => display change.state == "3" || display change.state == "4") = [] →
      calculateSuccessRate allChanges = 0) ∧
    (allChanges.filter
        (fun change => display change.state == "3" || display change.state == "4") ≠ [] →
      calculateSuccessRate allChanges =
        round ((((allChanges.filter
              (fun change => display change.state == "3" || display change.state == "4")).filter
            (fun change => display change.state == "3")).length : ℚ) /
          ((allChanges.filter
              (fun change => display change.state == "3" || display change.state == "4")).length : ℚ)
          * 100)) ∧
    (∀ change, ¬ (display change.state = "3" ∨ display change.state = "4") →
      calculateSuccessRate (change :: allChanges) = calculateSuccessRate allChanges) ∧
    (∀ change ∈ successfulChangesFilter allChanges,
      stateDispOrValue change.state = some "Completed" ∨
        stateDispOrValue change.state = some "3") := by
  refine ⟨?_, ?_, ?_, ?_⟩
  · intro hterm
    by_cases h0 : allChanges.length = 0 <;> simp [calculateSuccessRate, h0, hterm]
  · intro hterm
    have h0 : ¬ allChanges.length = 0 := by
      intro h0
      exact hterm (by rw [List.length_eq_zero.mp h0]; rfl)
    have hcomp : ¬ (allChanges.filter
        (fun change => display change.state == "3" || display change.state == "4")).length = 0 :=
      fun h => hterm (List.length_eq_zero.mp h)
    simp [calculateSuccessRate, h0, hcomp]
  · intro change hstate
    have hpred : (display change.state == "3" || display change.state == "4") = false := by
      simp only [Bool.or_eq_false_iff, beq_eq_false_iff_ne, ne_eq]
      exact ⟨fun h => hstate (Or.inl h), fun h => hstate (Or.inr h)⟩
    by_cases hl : allChanges.length = 0
    · rw [List.length_eq_zero.mp hl]
      simp [calculateSuccessRate, List.filter_cons, hpred]
    · simp [calculateSuccessRate, List.filter_cons, hpred, hl]
  · intro change hmem
    have h := (List.mem_filter.mp hmem).2
    simpa using h

/-- Witness for C9 at a concrete batch of three changes in display states
`'3'`, `'4'` and `'1'`: the terminal set has two records, one successful,
so the rate is `round(1/2 * 100) = 50`. -/
theorem c9_change_success_rate_witness :
    calculateSuccessRate
      [{ state := .fobj (some "3") none }, { state := .fobj (some "4") none },
        { state := .fobj (some "1") none }] = 50 ∧
    ({ state := Field.fobj (some "3") none } : ChangeRecord) ∈
      successfulChangesFilter [{ state := .fobj (some "3") none }] ∧
    (stateDispOrValue (Field.fobj (some "3") none) = some "Completed" ∨
      stateDispOrValue (Field.fobj (some "3") none) = some "3") := by
  have h := (c9_change_success_rate
    [{ state := .fobj (some "3") none }, { state := .fobj (some "4") none },
      { state := .fobj (some "1") none }]).2.1 (by decide)
  have hmem : ({ state := Field.fobj (some "3") none } : ChangeRecord) ∈
      successfulChangesFilter [{ state := .fobj (some "3") none }] := by decide
  have hs : (List.filter (fun change => display change.state == "3")
      (List.filter (fun change => display change.state == "3" || display change.state == "4")
        [{ state := .fobj (some "3") none }, { state := .fobj (some "4") none },
          ({ state := .fobj (some "1") none } : ChangeRecord)])).length = 1 := by decide
  have ht : (List.filter
      (fun change => display change.state == "3" || display change.state == "4")
      [{ state := .fobj (some "3") none }, { state := .fobj (some "4") none },
        ({ state := .fobj (some "1") none } : ChangeRecord)]).length = 2 := by decide
  refine ⟨?_, hmem, ?_⟩
  · rw [h, hs, ht]
    norm_num
  · exact (c9_change_success_rate [{ state := .fobj (some "3") none }]).2.2.2 _ hmem

/-- C10: the `display` and `value` accessors of `fields.js` are total over
every field-value shape — a bare string is returned unchanged, an object
resolves to its `display_value` (respectively `value`) member with the
empty-string default when that member is absent or empty, and `null` or
`undefined` yields the empty string — so no shape makes them throw. -/
theorem display_value_total :
    (∀ s : String, display (.str s) = s ∧ value (.str s) = s) ∧
    (∀ dv v : Option String,
      display (.fobj dv v) = jsStrOr dv "" ∧ value (.fobj dv v) = jsStrOr v "") ∧
    (display .null = "" ∧ value .null = "" ∧
      display .undef = "" ∧ value .undef = "") := by
  refine ⟨fun s => ⟨rfl, rfl⟩, fun dv v => ⟨rfl, rfl⟩, rfl, rfl, rfl, rfl⟩

end ITSM
